import Mathlib

/-!
Shallow embedding of `refinery/lib/mscrypto.py`: the Microsoft CryptoAPI
key-blob decoders (`BLOBHEADER`, `PLAINTEXTKEYBLOB`, `SIMPLEBLOB`,
`RSAPUBKEY`, `PRIVATEKEYBLOB`, `DHPUBKEY`, `CRYPTOKEY`) together with the
private-key consistency validator `PRIVATEKEYBLOB._check`.

Bytes are modelled as natural numbers, byte buffers as `List Nat`, and the
mutable `StructReader` as an explicit `(data, pos)` pair threaded through
each decoding step.  Every Python `raise` site becomes an explicit error
value of the taxonomy in the specification (`Underflow`, `UnknownEnumValue`,
`InvalidMagic`, `InvalidBitLength`, `UnsupportedBlobType`,
`UnsupportedAlgorithm`, `InconsistentKeyMaterial`), plus `zeroDivision` for
the `ZeroDivisionError` Python raises on division by zero and
`unboundAttribute` for access to an attribute that was never assigned.
-/

/-- Error kinds raised by the decoders: the specification's taxonomy in §7
plus the two failure modes Python's runtime itself produces. -/
inductive BlobError where
  | underflow
  | unknownEnumValue
  | invalidMagic
  | invalidBitLength
  | unsupportedBlobType
  | unsupportedAlgorithm
  | inconsistentKeyMaterial
  | zeroDivision
  | unboundAttribute
  deriving DecidableEq, Repr

/-- Modelled from the spec: the `StructReader` of `refinery/lib/structures.py`
(not part of the sources) is, per §4.1 of the specification, an immutable
byte buffer plus a monotonically advancing offset. -/
structure StructReader where
  data : List Nat
  pos : Nat
  deriving DecidableEq, Repr

/-- Little-endian interpretation of a byte sequence as an unsigned integer,
as the specification prescribes for every multi-byte field (§6). -/
def leNat : List Nat → Nat
  | [] => 0
  | b :: bs => b + 256 * leNat bs

/-- Modelled from the spec: `readExact(n)` of §4.1 — return the next `n`
bytes and advance, or fail with `Underflow` when fewer than `n` remain. -/
def read_exactly (n : Nat) (r : StructReader) : Except BlobError (List Nat × StructReader) :=
  if r.pos + n ≤ r.data.length then
    .ok ((r.data.drop r.pos).take n, ⟨r.data, r.pos + n⟩)
  else
    .error .underflow

/-- Sequencing of one decoding step into the next; the Python decoders are
straight-line statement sequences where any raise aborts the whole decode. -/
def pbind {α β : Type} (x : Except BlobError (α × StructReader))
    (k : α → StructReader → Except BlobError (β × StructReader)) :
    Except BlobError (β × StructReader) :=
  match x with
  | .error e => .error e
  | .ok (a, r) => k a r

/-- Modelled from the spec: `readU32()` of §4.1, a 4-byte little-endian
unsigned read (`StructReader.read_dword` in the source). -/
def read_dword (r : StructReader) : Except BlobError (Nat × StructReader) :=
  pbind (read_exactly 4 r) fun b r => .ok (leNat b, r)

/-- Modelled from the spec: `readUnsignedBigInt(n)` of §4.1 — the next `n`
bytes as an unsigned little-endian arbitrary-precision integer
(`StructReader.read_bigint` in the source). -/
def read_bigint (n : Nat) (r : StructReader) : Except BlobError (Nat × StructReader) :=
  pbind (read_exactly n r) fun b r => .ok (leNat b, r)

/-- The eight registered blob type codes of `class TYPES`. -/
def TYPES.codes : List Nat :=
  [0xC, 0x9, 0x8, 0x7, 0x6, 0xA, 0x1, 0xB]

def TYPES.KEYSTATEBLOB : Nat := 0xC
def TYPES.OPAQUEKEYBLOB : Nat := 0x9
def TYPES.PLAINTEXTKEYBLOB : Nat := 0x8
def TYPES.PRIVATEKEYBLOB : Nat := 0x7
def TYPES.PUBLICKEYBLOB : Nat := 0x6
def TYPES.PUBLICKEYBLOBEX : Nat := 0xA
def TYPES.SIMPLEBLOB : Nat := 0x1
def TYPES.SYMMETRICWRAPKEYBLOB : Nat := 0xB

/-- The registered algorithm codes of `class ALGORITHMS`, in source order. -/
def ALGORITHMS.codes : List Nat :=
  [0x00006603, 0x00006609, 0x00006611, 0x0000660e, 0x0000660f, 0x00006610,
   0x0000aa03, 0x0000660c, 0x00006601, 0x00006604, 0x0000aa02, 0x0000aa01,
   0x00002200, 0x0000aa05, 0x0000ae06, 0x00002203, 0x0000a001, 0x0000800b,
   0x0000a003, 0x00008009, 0x0000aa04, 0x00008005, 0x00008001, 0x00008002,
   0x00008003, 0x00002000, 0xffffffff, 0xfffffffe, 0x00004c04, 0x00006602,
   0x00006801, 0x0000660d, 0x0000a400, 0x00002400, 0x00004c07, 0x00004c03,
   0x00004c02, 0x00006802, 0x00008004, 0x0000800c, 0x0000800d, 0x0000800e,
   0x0000660a, 0x00004c05, 0x00004c01, 0x00008008, 0x0000660b, 0x00004c06,
   0x0000800a]

def ALGORITHMS.CALG_RSA_KEYX : Nat := 0x0000a400
def ALGORITHMS.CALG_RSA_SIGN : Nat := 0x00002400

/-- Decoded 8-byte blob header (`class BLOBHEADER`). -/
structure BLOBHEADER where
  type : Nat
  version : Nat
  reserved : Nat
  algorithm : Nat
  deriving DecidableEq, Repr

/-- `BLOBHEADER.__init__`: read `'=BBHI'` (8 bytes: u8 type, u8 version,
u16 reserved, u32 algorithm, little-endian), then validate the raw type and
algorithm codes against the registered enums; `TYPES(t)` and
`ALGORITHMS(a)` raise on unregistered codes. -/
def BLOBHEADER.decode (r : StructReader) : Except BlobError (BLOBHEADER × StructReader) :=
  pbind (read_exactly 8 r) fun hb r =>
    let t := leNat (hb.take 1)
    let version := leNat ((hb.drop 1).take 1)
    let reserved := leNat ((hb.drop 2).take 2)
    let a := leNat (hb.drop 4)
    if t ∉ TYPES.codes then .error .unknownEnumValue
    else if a ∉ ALGORITHMS.codes then .error .unknownEnumValue
    else .ok (⟨t, version, reserved, a⟩, r)

/-- Decoded plaintext key blob (`class PLAINTEXTKEYBLOB`). -/
structure PLAINTEXTKEYBLOB where
  size : Nat
  data : List Nat
  deriving DecidableEq, Repr

/-- `PLAINTEXTKEYBLOB.__init__`: a u32 size followed by exactly that many
bytes of raw key material. -/
def PLAINTEXTKEYBLOB.decode (r : StructReader) : Except BlobError (PLAINTEXTKEYBLOB × StructReader) :=
  pbind (read_dword r) fun size r =>
  pbind (read_exactly size r) fun data r =>
  .ok (⟨size, data⟩, r)

/-- Decoded simple blob (`class SIMPLEBLOB`); never actually constructed,
see `SIMPLEBLOB.decode`. -/
structure SIMPLEBLOB where
  magic : List Nat
  data : List Nat
  deriving DecidableEq, Repr

/-- `SIMPLEBLOB.__init__`: read the 4 magic bytes and require
`00 00 A4 00`; then the source reads `self.size` bytes, but `self.size` is
never assigned anywhere before this use (the specification flags exactly
this in §9), so the construction fails on the attribute access in every
case where the magic matched. -/
def SIMPLEBLOB.decode (r : StructReader) : Except BlobError (SIMPLEBLOB × StructReader) :=
  pbind (read_exactly 4 r) fun magic _r =>
  if magic ≠ [0x00, 0x00, 0xA4, 0x00] then .error .invalidMagic
  else .error .unboundAttribute

/-- Decoded RSA public key blob (`class RSAPUBKEY`); `size` holds the
modulus byte length after the `//= 8` rescaling the source performs. -/
structure RSAPUBKEY where
  magic : List Nat
  size : Nat
  exponent : Nat
  modulus : Nat
  deriving DecidableEq, Repr

/-- `RSAPUBKEY.__init__`: 4 magic bytes required to be `RSA2` or `RSA1`;
then `'<II'` (bit length and public exponent); the bit length must be a
multiple of 8 and is rescaled to a byte length; then the modulus as an
unsigned little-endian big integer of that many bytes. -/
def RSAPUBKEY.decode (r : StructReader) : Except BlobError (RSAPUBKEY × StructReader) :=
  pbind (read_exactly 4 r) fun magic r =>
  if magic ≠ [0x52, 0x53, 0x41, 0x32] ∧ magic ≠ [0x52, 0x53, 0x41, 0x31] then .error .invalidMagic
  else
  pbind (read_exactly 8 r) fun sb r =>
  let size := leNat (sb.take 4)
  let exponent := leNat (sb.drop 4)
  if size % 8 ≠ 0 then .error .invalidBitLength
  else
  let size := size / 8
  pbind (read_bigint size r) fun modulus r =>
  .ok (⟨magic, size, exponent, modulus⟩, r)

/-- Decoded RSA private key blob (`class PRIVATEKEYBLOB`). -/
structure PRIVATEKEYBLOB where
  pub : RSAPUBKEY
  prime1 : Nat
  prime2 : Nat
  exp1 : Nat
  exp2 : Nat
  coefficient : Nat
  exponent : Nat
  deriving DecidableEq, Repr

/-- `PRIVATEKEYBLOB._check`: the key-material consistency validator.
First `modulus // prime1` must equal `prime2` (Python integer floor
division; a zero `prime1` raises `ZeroDivisionError`).  Then with
`a = prime1 - 1`, `c = prime2 - 1` (Python ints, so the subtraction can go
negative), `totient = (a * c) // gcd(a, c)` and
`exponent_pub * exponent_priv % totient` must equal 1; `math.gcd` is the
nonnegative gcd, `//` is floor division and `%` takes the divisor's sign,
hence `Int.fdiv` and `Int.fmod`; a zero gcd or zero totient raises
`ZeroDivisionError`. -/
def PRIVATEKEYBLOB.check (b : PRIVATEKEYBLOB) : Except BlobError Unit :=
  if b.prime1 = 0 then .error .zeroDivision
  else if b.pub.modulus / b.prime1 ≠ b.prime2 then .error .inconsistentKeyMaterial
  else
    let a : Int := (b.prime1 : Int) - 1
    let c : Int := (b.prime2 : Int) - 1
    if Int.gcd a c = 0 then .error .zeroDivision
    else
      let totient : Int := Int.fdiv (a * c) (Int.gcd a c)
      if totient = 0 then .error .zeroDivision
      else if Int.fmod ((b.pub.exponent : Int) * (b.exponent : Int)) totient ≠ 1 then
        .error .inconsistentKeyMaterial
      else .ok ()

/-- `PRIVATEKEYBLOB.__init__`: an embedded `RSAPUBKEY`, then six unsigned
big integers each of `halfsize = pub.size // 2` bytes — including, in the
source as written, the final private exponent (line 130 reads it with
`halfsize` as well) — followed by the `_check` validator; a validator
failure aborts the whole decode. -/
def PRIVATEKEYBLOB.decode (r : StructReader) : Except BlobError (PRIVATEKEYBLOB × StructReader) :=
  pbind (RSAPUBKEY.decode r) fun pub r =>
  let halfsize := pub.size / 2
  pbind (read_bigint halfsize r) fun prime1 r =>
  pbind (read_bigint halfsize r) fun prime2 r =>
  pbind (read_bigint halfsize r) fun exp1 r =>
  pbind (read_bigint halfsize r) fun exp2 r =>
  pbind (read_bigint halfsize r) fun coefficient r =>
  pbind (read_bigint halfsize r) fun exponent r =>
  let b : PRIVATEKEYBLOB := ⟨pub, prime1, prime2, exp1, exp2, coefficient, exponent⟩
  match b.check with
  | .error e => .error e
  | .ok _ => .ok (b, r)

/-- Modelled from the spec: the `RsaPrivate` layout of §3 and §4.3, whose
`privateExponent` is an unsigned big integer of the full modulus byte
length (`public.byteLength` bytes) — unlike `PRIVATEKEYBLOB.decode` above,
which transcribes the source and reads it with `halfsize`.  Identical to
the source decoder in every other respect, including the validator. -/
def PRIVATEKEYBLOB.decodeSpec (r : StructReader) : Except BlobError (PRIVATEKEYBLOB × StructReader) :=
  pbind (RSAPUBKEY.decode r) fun pub r =>
  let halfsize := pub.size / 2
  pbind (read_bigint halfsize r) fun prime1 r =>
  pbind (read_bigint halfsize r) fun prime2 r =>
  pbind (read_bigint halfsize r) fun exp1 r =>
  pbind (read_bigint halfsize r) fun exp2 r =>
  pbind (read_bigint halfsize r) fun coefficient r =>
  pbind (read_bigint pub.size r) fun exponent r =>
  let b : PRIVATEKEYBLOB := ⟨pub, prime1, prime2, exp1, exp2, coefficient, exponent⟩
  match b.check with
  | .error e => .error e
  | .ok _ => .ok (b, r)

/-- Decoded Diffie-Hellman public key blob (`class DHPUBKEY`). -/
structure DHPUBKEY where
  magic : List Nat
  size : Nat
  public : Nat
  prime : Nat
  generator : Nat
  deriving DecidableEq, Repr

/-- `DHPUBKEY.__init__`: `'<4sI'` (4 magic bytes and a u32 bit length);
the magic must be `\0DH1` or `\0DH2`, the bit length a multiple of 8 and
rescaled to a byte length; then public value, prime and generator, each an
unsigned little-endian big integer of that many bytes. -/
def DHPUBKEY.decode (r : StructReader) : Except BlobError (DHPUBKEY × StructReader) :=
  pbind (read_exactly 8 r) fun mb r =>
  let magic := mb.take 4
  let size := leNat (mb.drop 4)
  if magic ≠ [0x00, 0x44, 0x48, 0x31] ∧ magic ≠ [0x00, 0x44, 0x48, 0x32] then .error .invalidMagic
  else if size % 8 ≠ 0 then .error .invalidBitLength
  else
  let size := size / 8
  pbind (read_bigint size r) fun pubvalue r =>
  pbind (read_bigint size r) fun prime r =>
  pbind (read_bigint size r) fun generator r =>
  .ok (⟨magic, size, pubvalue, prime, generator⟩, r)

/-- The decoded payload stored in `CRYPTOKEY.key`, one of the five variant
decoders. -/
inductive KEYDATA where
  | plaintext (k : PLAINTEXTKEYBLOB)
  | simple (k : SIMPLEBLOB)
  | rsaprivate (k : PRIVATEKEYBLOB)
  | rsapublic (k : RSAPUBKEY)
  | dhpublic (k : DHPUBKEY)
  deriving DecidableEq, Repr

/-- Decoded top-level crypto key (`class CRYPTOKEY`). -/
structure CRYPTOKEY where
  header : BLOBHEADER
  key : KEYDATA
  deriving DecidableEq, Repr

/-- `CRYPTOKEY.__init__`: decode the header, reject the session-bound
types, decode `PLAINTEXTKEYBLOB`/`SIMPLEBLOB` regardless of the algorithm,
and otherwise require an RSA algorithm before dispatching on the type.
The final branch is unreachable: the header validated the type against
the eight registered codes, all of which the chain above covers; Python
would leave `self.key` unset there, surfacing as an attribute error. -/
def CRYPTOKEY.decode (r : StructReader) : Except BlobError (CRYPTOKEY × StructReader) :=
  pbind (BLOBHEADER.decode r) fun header r =>
  if header.type = TYPES.KEYSTATEBLOB ∨ header.type = TYPES.OPAQUEKEYBLOB
      ∨ header.type = TYPES.SYMMETRICWRAPKEYBLOB then
    .error .unsupportedBlobType
  else if header.type = TYPES.PLAINTEXTKEYBLOB then
    pbind (PLAINTEXTKEYBLOB.decode r) fun k r => .ok (⟨header, .plaintext k⟩, r)
  else if header.type = TYPES.SIMPLEBLOB then
    pbind (SIMPLEBLOB.decode r) fun k r => .ok (⟨header, .simple k⟩, r)
  else if header.algorithm ≠ ALGORITHMS.CALG_RSA_KEYX
      ∧ header.algorithm ≠ ALGORITHMS.CALG_RSA_SIGN then
    .error .unsupportedAlgorithm
  else if header.type = TYPES.PRIVATEKEYBLOB then
    pbind (PRIVATEKEYBLOB.decode r) fun k r => .ok (⟨header, .rsaprivate k⟩, r)
  else if header.type = TYPES.PUBLICKEYBLOB then
    pbind (RSAPUBKEY.decode r) fun k r => .ok (⟨header, .rsapublic k⟩, r)
  else if header.type = TYPES.PUBLICKEYBLOBEX then
    pbind (DHPUBKEY.decode r) fun k r => .ok (⟨header, .dhpublic k⟩, r)
  else
    .error .unboundAttribute

/-! Inversion and helper lemmas. -/

theorem pbind_eq_ok {α β : Type} {x : Except BlobError (α × StructReader)}
    {k : α → StructReader → Except BlobError (β × StructReader)} {b : β} {r2 : StructReader}
    (h : pbind x k = .ok (b, r2)) :
    ∃ a r1, x = .ok (a, r1) ∧ k a r1 = .ok (b, r2) := by
  cases x with
  | error e => simp [pbind] at h
  | ok p =>
    obtain ⟨a, r1⟩ := p
    exact ⟨a, r1, rfl, h⟩

theorem read_exactly_eq_ok {n : Nat} {r : StructReader} {v : List Nat} {r2 : StructReader}
    (h : read_exactly n r = .ok (v, r2)) :
    r.pos + n ≤ r.data.length ∧ v = (r.data.drop r.pos).take n ∧ r2 = ⟨r.data, r.pos + n⟩ := by
  unfold read_exactly at h
  split at h
  · simp only [Except.ok.injEq, Prod.mk.injEq] at h
    exact ⟨by assumption, h.1.symm, h.2.symm⟩
  · simp at h

theorem leNat_singleton (z : Nat) : leNat [z] = z := by simp [leNat]

/-- Truncation behaviour of a decoding step: on a success over buffer `B`
from offset `pos`, the buffer is unchanged, the offset only advances,
cutting the buffer anywhere before the final offset turns the result into
`Underflow`, and cutting at or after it leaves the result unchanged. -/
def TruncOK {α : Type} (D : StructReader → Except BlobError (α × StructReader)) : Prop :=
  ∀ B pos a r2, D ⟨B, pos⟩ = .ok (a, r2) →
    r2.data = B ∧ pos ≤ r2.pos ∧
    (∀ t, pos ≤ t → t < r2.pos → D ⟨B.take t, pos⟩ = .error .underflow) ∧
    (∀ t, r2.pos ≤ t → D ⟨B.take t, pos⟩ = .ok (a, ⟨B.take t, r2.pos⟩))

theorem trunc_read (n : Nat) : TruncOK (read_exactly n) := by
  intro B pos a r2 h
  obtain ⟨hle, hv, hr⟩ := read_exactly_eq_ok h
  dsimp only at hle hv hr
  subst hr
  subst hv
  refine ⟨rfl, Nat.le_add_right _ _, ?_, ?_⟩
  · intro t hpt htr
    dsimp only at htr
    unfold read_exactly
    rw [if_neg]
    dsimp only
    simp only [List.length_take]
    omega
  · intro t htr
    dsimp only at htr
    unfold read_exactly
    rw [if_pos]
    · dsimp only
      congr 2
      rw [List.drop_take, List.take_take]
      congr 1
      omega
    · dsimp only
      simp only [List.length_take]
      omega

theorem trunc_pure {α : Type} (a : α) : TruncOK (fun r => .ok (a, r)) := by
  intro B pos a' r2 h
  simp only [Except.ok.injEq, Prod.mk.injEq] at h
  obtain ⟨ha, hr⟩ := h
  subst ha
  subst hr
  refine ⟨rfl, Nat.le_refl _, ?_, fun t _ => rfl⟩
  intro t hpt htr
  dsimp only at htr
  omega

theorem trunc_err {α : Type} (e : BlobError) : TruncOK (α := α) (fun _ => .error e) := by
  intro B pos a r2 h
  simp at h

theorem trunc_ite {α : Type} {c : Prop} [Decidable c]
    {D E : StructReader → Except BlobError (α × StructReader)}
    (hD : TruncOK D) (hE : TruncOK E) : TruncOK (fun r => if c then D r else E r) := by
  by_cases hc : c
  · simpa [hc] using hD
  · simpa [hc] using hE

theorem trunc_pbind {α β : Type} {D : StructReader → Except BlobError (α × StructReader)}
    {K : α → StructReader → Except BlobError (β × StructReader)}
    (hD : TruncOK D) (hK : ∀ a, TruncOK (K a)) :
    TruncOK (fun r => pbind (D r) K) := by
  intro B pos b r2 h
  obtain ⟨a, r1, hDok, hKok⟩ := pbind_eq_ok h
  obtain ⟨hdata1, hle1, hunder1, hok1⟩ := hD B pos a r1 hDok
  have hr1 : r1 = ⟨B, r1.pos⟩ := by
    cases r1
    simp_all
  rw [hr1] at hKok
  obtain ⟨hdata2, hle2, hunder2, hok2⟩ := hK a B r1.pos b r2 hKok
  refine ⟨hdata2, Nat.le_trans hle1 hle2, ?_, ?_⟩
  · intro t hpt htr
    show pbind (D ⟨B.take t, pos⟩) K = .error .underflow
    by_cases hcut : t < r1.pos
    · rw [hunder1 t hpt hcut]
      rfl
    · push_neg at hcut
      rw [hok1 t hcut]
      show K a ⟨B.take t, r1.pos⟩ = .error .underflow
      exact hunder2 t hcut htr
  · intro t htr
    show pbind (D ⟨B.take t, pos⟩) K = .ok (b, ⟨B.take t, r2.pos⟩)
    rw [hok1 t (Nat.le_trans hle2 htr)]
    show K a ⟨B.take t, r1.pos⟩ = .ok (b, ⟨B.take t, r2.pos⟩)
    exact hok2 t htr

theorem trunc_read_dword : TruncOK read_dword := by
  unfold read_dword
  exact trunc_pbind (trunc_read 4) (fun b => trunc_pure _)

theorem trunc_read_bigint (n : Nat) : TruncOK (read_bigint n) := by
  unfold read_bigint
  exact trunc_pbind (trunc_read n) (fun b => trunc_pure _)

theorem trunc_checked {α : Type} (x : Except BlobError Unit) (b : α) :
    TruncOK (fun r => match x with | .error e => .error e | .ok _ => .ok (b, r)) := by
  cases x with
  | error e => exact trunc_err e
  | ok u => exact trunc_pure b

theorem truncOK_header : TruncOK BLOBHEADER.decode := by
  unfold BLOBHEADER.decode
  exact trunc_pbind (trunc_read 8)
    (fun hb => trunc_ite (trunc_err _) (trunc_ite (trunc_err _) (trunc_pure _)))

theorem truncOK_plaintext : TruncOK PLAINTEXTKEYBLOB.decode := by
  unfold PLAINTEXTKEYBLOB.decode
  exact trunc_pbind trunc_read_dword
    (fun size => trunc_pbind (trunc_read size) (fun data => trunc_pure _))

theorem truncOK_simple : TruncOK SIMPLEBLOB.decode := by
  unfold SIMPLEBLOB.decode
  exact trunc_pbind (trunc_read 4) (fun magic => trunc_ite (trunc_err _) (trunc_err _))

theorem truncOK_rsapub : TruncOK RSAPUBKEY.decode := by
  unfold RSAPUBKEY.decode
  exact trunc_pbind (trunc_read 4)
    (fun magic => trunc_ite (trunc_err _)
      (trunc_pbind (trunc_read 8)
        (fun sb => trunc_ite (trunc_err _)
          (trunc_pbind (trunc_read_bigint _) (fun modulus => trunc_pure _)))))

theorem truncOK_rsapriv : TruncOK PRIVATEKEYBLOB.decode := by
  unfold PRIVATEKEYBLOB.decode
  exact trunc_pbind truncOK_rsapub
    (fun pub => trunc_pbind (trunc_read_bigint _)
      (fun prime1 => trunc_pbind (trunc_read_bigint _)
        (fun prime2 => trunc_pbind (trunc_read_bigint _)
          (fun exp1 => trunc_pbind (trunc_read_bigint _)
            (fun exp2 => trunc_pbind (trunc_read_bigint _)
              (fun coefficient => trunc_pbind (trunc_read_bigint _)
                (fun exponent => trunc_checked _ _)))))))

theorem truncOK_dhpub : TruncOK DHPUBKEY.decode := by
  unfold DHPUBKEY.decode
  exact trunc_pbind (trunc_read 8)
    (fun mb => trunc_ite (trunc_err _)
      (trunc_ite (trunc_err _)
        (trunc_pbind (trunc_read_bigint _)
          (fun pubvalue => trunc_pbind (trunc_read_bigint _)
            (fun prime => trunc_pbind (trunc_read_bigint _)
              (fun generator => trunc_pure _))))))

theorem truncOK_cryptokey : TruncOK CRYPTOKEY.decode := by
  unfold CRYPTOKEY.decode
  exact trunc_pbind truncOK_header
    (fun header => trunc_ite (trunc_err _)
      (trunc_ite (trunc_pbind truncOK_plaintext (fun k => trunc_pure _))
        (trunc_ite (trunc_pbind truncOK_simple (fun k => trunc_pure _))
          (trunc_ite (trunc_err _)
            (trunc_ite (trunc_pbind truncOK_rsapriv (fun k => trunc_pure _))
              (trunc_ite (trunc_pbind truncOK_rsapub (fun k => trunc_pure _))
                (trunc_ite (trunc_pbind truncOK_dhpub (fun k => trunc_pure _))
                  (trunc_err _))))))))

theorem PRIVATEKEYBLOB.decode_check {r : StructReader} {b : PRIVATEKEYBLOB} {r2 : StructReader}
    (h : PRIVATEKEYBLOB.decode r = .ok (b, r2)) : b.check = .ok () := by
  unfold PRIVATEKEYBLOB.decode at h
  obtain ⟨pub, r1, h1, h⟩ := pbind_eq_ok h
  obtain ⟨p1, rA, h2, h⟩ := pbind_eq_ok h
  obtain ⟨p2, rB, h3, h⟩ := pbind_eq_ok h
  obtain ⟨e1, rC, h4, h⟩ := pbind_eq_ok h
  obtain ⟨e2, rD, h5, h⟩ := pbind_eq_ok h
  obtain ⟨co, rE, h6, h⟩ := pbind_eq_ok h
  obtain ⟨ex, rF, h7, h⟩ := pbind_eq_ok h
  dsimp only at h
  cases hc : PRIVATEKEYBLOB.check ⟨pub, p1, p2, e1, e2, co, ex⟩ with
  | error e =>
    rw [hc] at h
    simp at h
  | ok u =>
    rw [hc] at h
    simp only [Except.ok.injEq, Prod.mk.injEq] at h
    obtain ⟨hb, hr⟩ := h
    subst hb
    cases u
    exact hc

theorem PRIVATEKEYBLOB.check_ok_facts {b : PRIVATEKEYBLOB} (h : b.check = .ok ()) :
    b.prime1 ≠ 0 ∧ b.pub.modulus / b.prime1 = b.prime2 ∧
    Int.fmod ((b.pub.exponent : Int) * (b.exponent : Int))
      (Int.fdiv (((b.prime1 : Int) - 1) * ((b.prime2 : Int) - 1))
        (Int.gcd ((b.prime1 : Int) - 1) ((b.prime2 : Int) - 1))) = 1 := by
  unfold PRIVATEKEYBLOB.check at h
  split at h
  · simp at h
  · split at h
    · simp at h
    · simp only [] at h
      split at h
      · simp at h
      · split at h
        · simp at h
        · split at h
          · simp at h
          · refine ⟨by assumption, by omega, by push_neg at *; assumption⟩

theorem CRYPTOKEY.decode_private {r : StructReader} {k : CRYPTOKEY} {r2 : StructReader}
    {b : PRIVATEKEYBLOB} (h : CRYPTOKEY.decode r = .ok (k, r2))
    (hk : k.key = .rsaprivate b) : b.check = .ok () := by
  unfold CRYPTOKEY.decode at h
  obtain ⟨header, r1, h1, h⟩ := pbind_eq_ok h
  split at h
  · simp at h
  · split at h
    · obtain ⟨kk, rA, h2, h⟩ := pbind_eq_ok h
      simp only [Except.ok.injEq, Prod.mk.injEq] at h
      obtain ⟨hkk, -⟩ := h
      rw [← hkk] at hk
      simp at hk
    · split at h
      · obtain ⟨kk, rA, h2, h⟩ := pbind_eq_ok h
        simp only [Except.ok.injEq, Prod.mk.injEq] at h
        obtain ⟨hkk, -⟩ := h
        rw [← hkk] at hk
        simp at hk
      · split at h
        · simp at h
        · split at h
          · obtain ⟨kk, rA, h2, h⟩ := pbind_eq_ok h
            simp only [Except.ok.injEq, Prod.mk.injEq] at h
            obtain ⟨hkk, -⟩ := h
            rw [← hkk] at hk
            simp only [KEYDATA.rsaprivate.injEq] at hk
            rw [← hk]
            exact PRIVATEKEYBLOB.decode_check h2
          · split at h
            · obtain ⟨kk, rA, h2, h⟩ := pbind_eq_ok h
              simp only [Except.ok.injEq, Prod.mk.injEq] at h
              obtain ⟨hkk, -⟩ := h
              rw [← hkk] at hk
              simp at hk
            · split at h
              · obtain ⟨kk, rA, h2, h⟩ := pbind_eq_ok h
                simp only [Except.ok.injEq, Prod.mk.injEq] at h
                obtain ⟨hkk, -⟩ := h
                rw [← hkk] at hk
                simp at hk
              · simp at h

theorem BLOBHEADER.decode_bad (b0 b1 b2 b3 b4 b5 b6 b7 : Nat) (rest : List Nat)
    (h : b0 ∉ TYPES.codes ∨ leNat [b4, b5, b6, b7] ∉ ALGORITHMS.codes) :
    BLOBHEADER.decode ⟨b0 :: b1 :: b2 :: b3 :: b4 :: b5 :: b6 :: b7 :: rest, 0⟩ =
      .error .unknownEnumValue := by
  unfold BLOBHEADER.decode read_exactly
  rw [if_pos (by simp)]
  simp only [pbind, List.drop_zero, List.take_succ_cons, List.take_zero, List.drop_succ_cons,
    leNat_singleton]
  by_cases ht : b0 ∈ TYPES.codes
  · rw [if_neg (not_not_intro ht)]
    rcases h with h | h
    · exact absurd ht h
    · rw [if_pos h]
  · rw [if_pos ht]

theorem BLOBHEADER.decode_cons (b0 b1 b2 b3 b4 b5 b6 b7 : Nat) (rest : List Nat)
    (ht : b0 ∈ TYPES.codes) (ha : leNat [b4, b5, b6, b7] ∈ ALGORITHMS.codes) :
    BLOBHEADER.decode ⟨b0 :: b1 :: b2 :: b3 :: b4 :: b5 :: b6 :: b7 :: rest, 0⟩ =
      .ok (⟨b0, b1, leNat [b2, b3], leNat [b4, b5, b6, b7]⟩,
        ⟨b0 :: b1 :: b2 :: b3 :: b4 :: b5 :: b6 :: b7 :: rest, 8⟩) := by
  unfold BLOBHEADER.decode read_exactly
  rw [if_pos (by simp)]
  simp only [pbind, List.drop_zero, List.take_succ_cons, List.take_zero, List.drop_succ_cons,
    leNat_singleton]
  rw [if_neg (not_not_intro ht), if_neg (not_not_intro ha)]

/-! Concrete byte buffers used as witnesses and counterexamples. -/

/-- Byte image of a genuine 16-bit RSA private key blob in the Microsoft
`PRIVATEKEYBLOB` wire layout: header (type 7, version 2, algorithm
`CALG_RSA_KEYX`), `RSA2` public part with bit length 16, exponent 7 and
modulus 60491 = 251 * 241, the five CRT components as single bytes
(exp1 = 143, exp2 = 103, coefficient = 25), and the private exponent
5143 = 7⁻¹ mod 6000 as a full-width two-byte field `17 14`. -/
def c1blob : List Nat :=
  [0x07, 0x02, 0x00, 0x00, 0x00, 0xA4, 0x00, 0x00,
   0x52, 0x53, 0x41, 0x32, 0x10, 0x00, 0x00, 0x00, 0x07, 0x00, 0x00, 0x00,
   0x4B, 0xEC,
   0xFB, 0xF1, 0x8F, 0x67, 0x19,
   0x17, 0x14]

/-- The decoding of `c1blob`'s private-key body under the specification's
field widths, with the private exponent read from both of its bytes. -/
def c1spec : PRIVATEKEYBLOB :=
  ⟨⟨[0x52, 0x53, 0x41, 0x32], 2, 7, 60491⟩, 251, 241, 143, 103, 25, 5143⟩

/-- Byte image of a private key blob whose modulus field holds 144 while
prime1 = 11 and prime2 = 13, so the modulus is not the product of the
primes (144 = 11 * 13 + 1), yet `144 // 11 = 13`; the exponents 7 and 43
satisfy `7 * 43 = 301 ≡ 1 (mod 60)`. -/
def c2blob : List Nat :=
  [0x07, 0x02, 0x00, 0x00, 0x00, 0xA4, 0x00, 0x00,
   0x52, 0x53, 0x41, 0x32, 0x10, 0x00, 0x00, 0x00, 0x07, 0x00, 0x00, 0x00,
   0x90, 0x00,
   0x0B, 0x0D, 0x03, 0x0B, 0x04, 0x2B]

/-- The private-key structure `c2blob` decodes to. -/
def c2priv : PRIVATEKEYBLOB :=
  ⟨⟨[0x52, 0x53, 0x41, 0x32], 2, 7, 144⟩, 11, 13, 3, 11, 4, 43⟩

/-- The top-level crypto key `c2blob` decodes to. -/
def c2key : CRYPTOKEY := ⟨⟨0x7, 0x2, 0, 0xa400⟩, .rsaprivate c2priv⟩

/-! Claim theorems. -/

/-- C1: the claim states that after the embedded `RsaPublic`, the five
half-width fields are followed by a `privateExponent` of the full modulus
byte length.  The source instead reads the private exponent with
`halfsize` as well (`mscrypto.py` line 130), so on the genuine full-format
blob `c1blob` the decoder reads only the low byte of the private exponent
and the validator then rejects the consistent key with
`InconsistentKeyMaterial`, while the specification's field widths
(`PRIVATEKEYBLOB.decodeSpec`) accept it and recover the private exponent
5143. -/
theorem C1_private_exponent_length :
    CRYPTOKEY.decode ⟨c1blob, 0⟩ = .error .inconsistentKeyMaterial ∧
    PRIVATEKEYBLOB.decode ⟨c1blob, 8⟩ = .error .inconsistentKeyMaterial ∧
    PRIVATEKEYBLOB.decodeSpec ⟨c1blob, 8⟩ = .ok (c1spec, ⟨c1blob, 29⟩) :=
  ⟨rfl, rfl, rfl⟩

/-- C2 counterexample: `c2blob` decodes successfully although its modulus
144 leaves remainder 1 when divided by prime1 = 11 and is not the product
11 * 13 of its primes; the claim's assertion that a nonzero remainder is
rejected with `InconsistentKeyMaterial` is false of the source, which
compares only the floor quotient `modulus // prime1` with prime2. -/
theorem C2_nonzero_remainder_accepted :
    CRYPTOKEY.decode ⟨c2blob, 0⟩ = .ok (c2key, ⟨c2blob, 28⟩) ∧
    c2priv.pub.modulus % c2priv.prime1 ≠ 0 ∧
    c2priv.pub.modulus ≠ c2priv.prime1 * c2priv.prime2 :=
  ⟨rfl, by decide, by decide⟩

/-- C2 amended: for every `RsaPrivate` blob that decodes successfully, the
floor quotient `modulus // prime1` equals `prime2`; the remainder of that
division is not inspected, so a modulus that differs from
`prime1 * prime2` by less than `prime1` is accepted. -/
theorem C2_floor_quotient_only (r : StructReader) (b : PRIVATEKEYBLOB) (r2 : StructReader)
    (h : PRIVATEKEYBLOB.decode r = .ok (b, r2)) :
    b.pub.modulus / b.prime1 = b.prime2 :=
  ((PRIVATEKEYBLOB.check_ok_facts (PRIVATEKEYBLOB.decode_check h)).2).1

/-- Witness for C2 amended at the concrete blob `c2blob`. -/
theorem C2_floor_quotient_only_witness :
    PRIVATEKEYBLOB.decode ⟨c2blob, 8⟩ = .ok (c2priv, ⟨c2blob, 28⟩) ∧
    c2priv.pub.modulus / c2priv.prime1 = c2priv.prime2 :=
  ⟨rfl, C2_floor_quotient_only ⟨c2blob, 8⟩ c2priv ⟨c2blob, 28⟩ rfl⟩

/-- C3: for every `RsaPrivate` blob that decodes successfully, the product
of the public and private exponents is congruent to 1 modulo the reduced
(Carmichael-style) totient `((prime1 - 1) * (prime2 - 1)) / gcd(prime1 - 1,
prime2 - 1)`, computed with exact integer arithmetic exactly as the Python
source computes it (`//` is `Int.fdiv`, `%` is `Int.fmod`). -/
theorem C3_exponent_inverse (r : StructReader) (b : PRIVATEKEYBLOB) (r2 : StructReader)
    (h : PRIVATEKEYBLOB.decode r = .ok (b, r2)) :
    Int.fmod ((b.pub.exponent : Int) * (b.exponent : Int))
      (Int.fdiv (((b.prime1 : Int) - 1) * ((b.prime2 : Int) - 1))
        (Int.gcd ((b.prime1 : Int) - 1) ((b.prime2 : Int) - 1))) = 1 :=
  ((PRIVATEKEYBLOB.check_ok_facts (PRIVATEKEYBLOB.decode_check h)).2).2

/-- Witness for C3 at the concrete blob `c2blob`. -/
theorem C3_exponent_inverse_witness :
    PRIVATEKEYBLOB.decode ⟨c2blob, 8⟩ = .ok (c2priv, ⟨c2blob, 28⟩) ∧
    Int.fmod ((c2priv.pub.exponent : Int) * (c2priv.exponent : Int))
      (Int.fdiv (((c2priv.prime1 : Int) - 1) * ((c2priv.prime2 : Int) - 1))
        (Int.gcd ((c2priv.prime1 : Int) - 1) ((c2priv.prime2 : Int) - 1))) = 1 :=
  ⟨rfl, C3_exponent_inverse ⟨c2blob, 8⟩ c2priv ⟨c2blob, 28⟩ rfl⟩

/-- C4: whenever the four magic bytes of a Simple, RsaPublic or DhPublic
variant differ from their required values, that variant's decoder fails
with `InvalidMagic`; the buffer beyond the fixed-size prefix is universally
quantified (it may even be empty), so no big-integer field is ever read
before the failure. -/
theorem C4_invalid_magic (a b c d : Nat) (rest : List Nat)
    (hs : [a, b, c, d] ≠ [0x00, 0x00, 0xA4, 0x00])
    (hr2 : [a, b, c, d] ≠ [0x52, 0x53, 0x41, 0x32])
    (hr1 : [a, b, c, d] ≠ [0x52, 0x53, 0x41, 0x31])
    (hd1 : [a, b, c, d] ≠ [0x00, 0x44, 0x48, 0x31])
    (hd2 : [a, b, c, d] ≠ [0x00, 0x44, 0x48, 0x32]) :
    SIMPLEBLOB.decode ⟨a :: b :: c :: d :: rest, 0⟩ = .error .invalidMagic ∧
    RSAPUBKEY.decode ⟨a :: b :: c :: d :: rest, 0⟩ = .error .invalidMagic ∧
    ∀ s0 s1 s2 s3 : Nat,
      DHPUBKEY.decode ⟨a :: b :: c :: d :: s0 :: s1 :: s2 :: s3 :: rest, 0⟩ =
        .error .invalidMagic := by
  refine ⟨?_, ?_, ?_⟩
  · unfold SIMPLEBLOB.decode read_exactly
    rw [if_pos (by simp)]
    simp only [pbind, List.drop_zero, List.take_succ_cons, List.take_zero]
    rw [if_pos hs]
  · unfold RSAPUBKEY.decode read_exactly
    rw [if_pos (by simp)]
    simp only [pbind, List.drop_zero, List.take_succ_cons, List.take_zero]
    rw [if_pos ⟨hr2, hr1⟩]
  · intro s0 s1 s2 s3
    unfold DHPUBKEY.decode read_exactly
    rw [if_pos (by simp)]
    simp only [pbind, List.drop_zero, List.take_succ_cons, List.take_zero, List.drop_succ_cons]
    rw [if_pos ⟨hd1, hd2⟩]

/-- Witness for C4 at the magic bytes `XXXX`. -/
theorem C4_invalid_magic_witness :
    SIMPLEBLOB.decode ⟨[0x58, 0x58, 0x58, 0x58], 0⟩ = .error .invalidMagic ∧
    RSAPUBKEY.decode ⟨[0x58, 0x58, 0x58, 0x58], 0⟩ = .error .invalidMagic ∧
    DHPUBKEY.decode ⟨[0x58, 0x58, 0x58, 0x58, 0, 0, 0, 0], 0⟩ = .error .invalidMagic :=
  have h := C4_invalid_magic 0x58 0x58 0x58 0x58 []
    (by decide) (by decide) (by decide) (by decide) (by decide)
  ⟨h.1, h.2.1, h.2.2 0 0 0 0⟩

/-- C5: a declared bit length that is not divisible by 8 makes the
RsaPublic and DhPublic decoders fail with `InvalidBitLength`; the buffer
beyond the fixed-size prefix is universally quantified (it may even be
empty), so no modulus or public-value bytes are consumed before the
failure. -/
theorem C5_invalid_bitlength (s0 s1 s2 s3 e0 e1 e2 e3 : Nat) (rest : List Nat)
    (hs : leNat [s0, s1, s2, s3] % 8 ≠ 0) :
    RSAPUBKEY.decode ⟨0x52 :: 0x53 :: 0x41 :: 0x31 :: s0 :: s1 :: s2 :: s3
        :: e0 :: e1 :: e2 :: e3 :: rest, 0⟩ = .error .invalidBitLength ∧
    DHPUBKEY.decode ⟨0x00 :: 0x44 :: 0x48 :: 0x31 :: s0 :: s1 :: s2 :: s3 :: rest, 0⟩ =
      .error .invalidBitLength := by
  refine ⟨?_, ?_⟩
  · unfold RSAPUBKEY.decode read_exactly
    rw [if_pos (by simp)]
    simp only [pbind, List.drop_zero, List.take_succ_cons, List.take_zero, List.drop_succ_cons]
    rw [if_neg (by decide)]
    rw [if_pos (by simp)]
    simp only [pbind, List.drop_zero, List.take_succ_cons, List.take_zero, List.drop_succ_cons]
    rw [if_pos hs]
  · unfold DHPUBKEY.decode read_exactly
    rw [if_pos (by simp)]
    simp only [pbind, List.drop_zero, List.take_succ_cons, List.take_zero, List.drop_succ_cons]
    rw [if_neg (by decide), if_pos hs]

/-- Witness for C5 at the specification's example bit length 1025. -/
theorem C5_invalid_bitlength_witness :
    RSAPUBKEY.decode ⟨[0x52, 0x53, 0x41, 0x31, 0x01, 0x04, 0, 0, 0, 0, 0, 0], 0⟩ =
      .error .invalidBitLength ∧
    DHPUBKEY.decode ⟨[0x00, 0x44, 0x48, 0x31, 0x01, 0x04, 0, 0], 0⟩ =
      .error .invalidBitLength :=
  C5_invalid_bitlength 0x01 0x04 0 0 0 0 0 0 [] (by decide)

/-- C6: if a buffer decodes successfully through the top-level pipeline,
then truncating it anywhere strictly before the final cursor position —
in particular before the boundary of any declared field — makes the decode
fail with `Underflow`; no read returns truncated or padded data. -/
theorem C6_truncation_underflow (B : List Nat) (k : CRYPTOKEY) (r2 : StructReader) (t : Nat)
    (h : CRYPTOKEY.decode ⟨B, 0⟩ = .ok (k, r2)) (ht : t < r2.pos) :
    CRYPTOKEY.decode ⟨B.take t, 0⟩ = .error .underflow :=
  (truncOK_cryptokey B 0 k r2 h).2.2.1 t (Nat.zero_le t) ht

/-- Witness for C6: `c2blob` truncated to 10 bytes (inside the RSA magic). -/
theorem C6_truncation_underflow_witness :
    CRYPTOKEY.decode ⟨c2blob.take 10, 0⟩ = .error .underflow :=
  C6_truncation_underflow c2blob c2key ⟨c2blob, 28⟩ 10 rfl (by decide)

/-- C7: an 8-byte header whose raw type code or raw little-endian algorithm
code is not registered in the corresponding enum makes the top-level decode
fail with `UnknownEnumValue`; the bytes after the header are universally
quantified (they may even be absent), so the failure happens before any
variant-selection logic or variant read. -/
theorem C7_unknown_enum_value (b0 b1 b2 b3 b4 b5 b6 b7 : Nat) (rest : List Nat)
    (h : b0 ∉ TYPES.codes ∨ leNat [b4, b5, b6, b7] ∉ ALGORITHMS.codes) :
    CRYPTOKEY.decode ⟨b0 :: b1 :: b2 :: b3 :: b4 :: b5 :: b6 :: b7 :: rest, 0⟩ =
      .error .unknownEnumValue := by
  unfold CRYPTOKEY.decode
  rw [BLOBHEADER.decode_bad b0 b1 b2 b3 b4 b5 b6 b7 rest h]
  rfl

/-- Witness for C7 at the specification's example type byte `0xFF`. -/
theorem C7_unknown_enum_value_witness :
    CRYPTOKEY.decode ⟨[0xFF, 0, 0, 0, 0, 0xA4, 0, 0], 0⟩ = .error .unknownEnumValue :=
  C7_unknown_enum_value 0xFF 0 0 0 0 0xA4 0 0 [] (Or.inl (by decide))

/-- C8: dispatch consults the algorithm only in the RSA/DH branch.  For a
registered algorithm code `a`, a Plaintext (type 8) or Simple (type 1)
header is decoded by the corresponding variant decoder whatever `a` is,
while for the PrivateKey (7), PublicKey (6) and PublicKeyEx (10) types an
algorithm outside {`CALG_RSA_KEYX`, `CALG_RSA_SIGN`} fails with
`UnsupportedAlgorithm` for every possible remainder of the buffer, before
any variant decoder runs. -/
theorem C8_dispatch_algorithm (v x y a0 a1 a2 a3 : Nat) (rest : List Nat)
    (ha : leNat [a0, a1, a2, a3] ∈ ALGORITHMS.codes) :
    (CRYPTOKEY.decode ⟨0x8 :: v :: x :: y :: a0 :: a1 :: a2 :: a3 :: rest, 0⟩ =
      pbind (PLAINTEXTKEYBLOB.decode ⟨0x8 :: v :: x :: y :: a0 :: a1 :: a2 :: a3 :: rest, 8⟩)
        (fun k r => .ok (⟨⟨0x8, v, leNat [x, y], leNat [a0, a1, a2, a3]⟩, .plaintext k⟩, r))) ∧
    (CRYPTOKEY.decode ⟨0x1 :: v :: x :: y :: a0 :: a1 :: a2 :: a3 :: rest, 0⟩ =
      pbind (SIMPLEBLOB.decode ⟨0x1 :: v :: x :: y :: a0 :: a1 :: a2 :: a3 :: rest, 8⟩)
        (fun k r => .ok (⟨⟨0x1, v, leNat [x, y], leNat [a0, a1, a2, a3]⟩, .simple k⟩, r))) ∧
    (leNat [a0, a1, a2, a3] ≠ ALGORITHMS.CALG_RSA_KEYX →
     leNat [a0, a1, a2, a3] ≠ ALGORITHMS.CALG_RSA_SIGN →
      CRYPTOKEY.decode ⟨0x7 :: v :: x :: y :: a0 :: a1 :: a2 :: a3 :: rest, 0⟩ =
        .error .unsupportedAlgorithm ∧
      CRYPTOKEY.decode ⟨0x6 :: v :: x :: y :: a0 :: a1 :: a2 :: a3 :: rest, 0⟩ =
        .error .unsupportedAlgorithm ∧
      CRYPTOKEY.decode ⟨0xA :: v :: x :: y :: a0 :: a1 :: a2 :: a3 :: rest, 0⟩ =
        .error .unsupportedAlgorithm) := by
  refine ⟨?_, ?_, fun h1 h2 => ⟨?_, ?_, ?_⟩⟩
  · unfold CRYPTOKEY.decode
    rw [BLOBHEADER.decode_cons 0x8 v x y a0 a1 a2 a3 rest (by decide) ha]
    simp only [pbind]
    rw [if_neg (by decide), if_pos (by decide)]
  · unfold CRYPTOKEY.decode
    rw [BLOBHEADER.decode_cons 0x1 v x y a0 a1 a2 a3 rest (by decide) ha]
    simp only [pbind]
    rw [if_neg (by decide), if_neg (by decide), if_pos (by decide)]
  · unfold CRYPTOKEY.decode
    rw [BLOBHEADER.decode_cons 0x7 v x y a0 a1 a2 a3 rest (by decide) ha]
    simp only [pbind]
    rw [if_neg (by decide), if_neg (by decide), if_neg (by decide), if_pos ⟨h1, h2⟩]
  · unfold CRYPTOKEY.decode
    rw [BLOBHEADER.decode_cons 0x6 v x y a0 a1 a2 a3 rest (by decide) ha]
    simp only [pbind]
    rw [if_neg (by decide), if_neg (by decide), if_neg (by decide), if_pos ⟨h1, h2⟩]
  · unfold CRYPTOKEY.decode
    rw [BLOBHEADER.decode_cons 0xA v x y a0 a1 a2 a3 rest (by decide) ha]
    simp only [pbind]
    rw [if_neg (by decide), if_neg (by decide), if_neg (by decide), if_pos ⟨h1, h2⟩]

/-- Witness for C8 at the registered non-RSA algorithm `CALG_3DES`
(code `0x6603`). -/
theorem C8_dispatch_algorithm_witness :
    (CRYPTOKEY.decode ⟨[0x8, 0, 0, 0, 0x03, 0x66, 0, 0], 0⟩ =
      pbind (PLAINTEXTKEYBLOB.decode ⟨[0x8, 0, 0, 0, 0x03, 0x66, 0, 0], 8⟩)
        (fun k r => .ok (⟨⟨0x8, 0, leNat [0, 0], leNat [0x03, 0x66, 0, 0]⟩, .plaintext k⟩, r))) ∧
    (CRYPTOKEY.decode ⟨[0x1, 0, 0, 0, 0x03, 0x66, 0, 0], 0⟩ =
      pbind (SIMPLEBLOB.decode ⟨[0x1, 0, 0, 0, 0x03, 0x66, 0, 0], 8⟩)
        (fun k r => .ok (⟨⟨0x1, 0, leNat [0, 0], leNat [0x03, 0x66, 0, 0]⟩, .simple k⟩, r))) ∧
    CRYPTOKEY.decode ⟨[0x7, 0, 0, 0, 0x03, 0x66, 0, 0], 0⟩ = .error .unsupportedAlgorithm ∧
    CRYPTOKEY.decode ⟨[0x6, 0, 0, 0, 0x03, 0x66, 0, 0], 0⟩ = .error .unsupportedAlgorithm ∧
    CRYPTOKEY.decode ⟨[0xA, 0, 0, 0, 0x03, 0x66, 0, 0], 0⟩ = .error .unsupportedAlgorithm :=
  have h := C8_dispatch_algorithm 0 0 0 0x03 0x66 0 0 [] (by decide)
  have hc := h.2.2 (by decide) (by decide)
  ⟨h.1, h.2.1, hc.1, hc.2.1, hc.2.2⟩

/-- C9: decoding is all-or-nothing.  Whenever the top-level decode returns
a key at all and that key carries an `RsaPrivate` payload, the payload has
passed the validator (`_check` returned successfully); a blob whose fields
were all read but whose validation failed is never returned. -/
theorem C9_all_or_nothing (B : List Nat) (k : CRYPTOKEY) (r2 : StructReader)
    (b : PRIVATEKEYBLOB) (h : CRYPTOKEY.decode ⟨B, 0⟩ = .ok (k, r2))
    (hk : k.key = .rsaprivate b) : b.check = .ok () :=
  CRYPTOKEY.decode_private h hk

/-- Witness for C9 at the concrete blob `c2blob`. -/
theorem C9_all_or_nothing_witness : c2priv.check = .ok () :=
  C9_all_or_nothing c2blob c2key ⟨c2blob, 28⟩ c2priv rfl rfl

/-- C10: the Simple-blob decoder can never produce a value: a magic
mismatch fails with `InvalidMagic`, and a matching magic still fails
because the payload size `self.size` is an attribute that was never
assigned; no `SIMPLEBLOB` is ever constructed. -/
theorem C10_simple_never_succeeds (r : StructReader) :
    (SIMPLEBLOB.decode r).toOption = none := by
  unfold SIMPLEBLOB.decode
  cases hx : read_exactly 4 r with
  | error e => rfl
  | ok p =>
    obtain ⟨m, r1⟩ := p
    show (if m ≠ [0x00, 0x00, 0xA4, 0x00] then
      (Except.error BlobError.invalidMagic : Except BlobError (SIMPLEBLOB × StructReader))
      else .error .unboundAttribute).toOption = none
    split
    · rfl
    · rfl
